import Mathlib

/-!
Shallow embedding of the parsec-web WebAssembly wrapper, covering
src/cpp/equations_parser_wrapper.cpp and src/cpp/math_functions.cpp.

The external equations-parser engine is out of scope of the repository;
it is modelled as an abstract structure whose two entry points
(EquationsParser.CalcJson and EquationsParser.Calc) may return normally
with a string, throw a typed C++ exception (derived from std.exception,
carrying the what() diagnostic message), or throw an untyped value.

Console output (both std.cout and std.cerr, which the host sees as one
diagnostic stream) is modelled as a list of lines threaded through every
function in state-passing style: each function takes the log so far and
returns the extended log.
-/

namespace ParsecWeb

/-- Outcome of one call into the external equations-parser engine:
normal return carrying a string, a typed C++ exception (a std.exception
whose what() text is `msg`), or an untyped exception. -/
inductive EngineOutcome where
  | ok (result : String)
  | typedExc (msg : String)
  | unknownExc
deriving DecidableEq

/-- The external engine, a black box: `CalcJson` is the
compute-and-serialize-to-JSON entry point, `Calc` the plain-string one.
Each is modelled by the outcome it produces on a given input string. -/
structure Engine where
  CalcJson : String → EngineOutcome
  Calc : String → EngineOutcome

/-- The host-visible diagnostic log stream, as a list of lines. -/
abbrev Log := List String

/-- Embeds logEquationEvaluation: prints the input before evaluation. -/
def logEquationEvaluation (equation : String) (log : Log) : Log :=
  log ++ ["C++: Evaluating equation: " ++ equation]

/-- Embeds evaluateEquationSafely: delegates to EquationsParser.CalcJson. -/
def evaluateEquationSafely (engine : Engine) (equation : String) : EngineOutcome :=
  engine.CalcJson equation

/-- Embeds logSuccessfulEvaluation: prints the engine result line. -/
def logSuccessfulEvaluation (result : String) (log : Log) : Log :=
  log ++ ["C++: Result: " ++ result]

/-- Embeds createErrorJson: plain concatenation, no JSON escaping. -/
def createErrorJson (errorMessage : String) : String :=
  "\x7b\"error\": \"" ++ errorMessage ++ "\"\x7d"

/-- Embeds handleKnownException: logs the caught std.exception and
returns the error JSON built from the prefixed what() text. -/
def handleKnownException (e : String) (log : Log) : String × Log :=
  (createErrorJson ("C++ exception: " ++ e),
   log ++ ["C++: Exception caught: " ++ e])

/-- Embeds handleUnknownException: logs and returns the fixed
generic error JSON. -/
def handleUnknownException (log : Log) : String × Log :=
  (createErrorJson "Unknown C++ exception occurred",
   log ++ ["C++: Unknown exception caught"])

/-- Embeds eval_equation: log the input, call the engine through
evaluateEquationSafely, return its string on normal return, and convert
either kind of exception into an error JSON string. -/
def eval_equation (engine : Engine) (equation : String) (log : Log) : String × Log :=
  let log1 := logEquationEvaluation equation log
  match evaluateEquationSafely engine equation with
  | EngineOutcome.ok result => (result, logSuccessfulEvaluation result log1)
  | EngineOutcome.typedExc e => handleKnownException e log1
  | EngineOutcome.unknownExc => handleUnknownException log1

/-- Embeds logModuleLoadSuccess. -/
def logModuleLoadSuccess (log : Log) : Log :=
  log ++ ["C++: Equations-parser WASM module loaded successfully!"]

/-- Embeds logTestFailure. -/
def logTestFailure (log : Log) : Log :=
  log ++ ["C++: Test failed - equations-parser not working properly"]

/-- Embeds getSuccessIndicator. -/
def getSuccessIndicator : Int := 42

/-- Embeds getFailureIndicator. -/
def getFailureIndicator : Int := -1

/-- Embeds runBasicFunctionalityTest: calls EquationsParser.Calc on the
fixed test equation "2 + 2"; on normal return it logs the test line and
returns the success indicator; an exception propagates to the caller
(modelled as the error branch, carrying the log at the throw point,
which precedes the test output line). -/
def runBasicFunctionalityTest (engine : Engine) (log : Log) : Except Log (Int × Log) :=
  match engine.Calc "2 + 2" with
  | EngineOutcome.ok testResult =>
      Except.ok (getSuccessIndicator,
        log ++ ["C++: Basic test (2 + 2) = " ++ testResult])
  | EngineOutcome.typedExc _ => Except.error log
  | EngineOutcome.unknownExc => Except.error log

/-- Embeds test_equations_parser_loaded: logs module load, runs the
basic functionality test, and converts any exception (catch-all) into
the failure indicator after logging the test failure. -/
def test_equations_parser_loaded (engine : Engine) (log : Log) : Int × Log :=
  let log1 := logModuleLoadSuccess log
  match runBasicFunctionalityTest engine log1 with
  | Except.ok res => res
  | Except.error log2 => (getFailureIndicator, logTestFailure log2)

/-- Embeds sum from math_functions.cpp: returns the double-precision
value a + b and emits one log line. -/
def sum (a b : Float) (log : Log) : Float × Log :=
  (a + b,
   log ++ ["C++: Computing sum(" ++ toString a ++ ", " ++ toString b
     ++ ") = " ++ toString (a + b)])

/-- Embeds multiply from math_functions.cpp: returns the
double-precision value a * b and emits one log line. -/
def multiply (a b : Float) (log : Log) : Float × Log :=
  (a * b,
   log ++ ["C++: Computing multiply(" ++ toString a ++ ", " ++ toString b
     ++ ") = " ++ toString (a * b)])

/-! JSON well-formedness. A checker for RFC 8259 JSON text, used to state
that an unescaped quote inside an error message breaks the payload.
It scans a character list and returns the remaining input on success. -/

/-- JSON insignificant whitespace. -/
def isJsonWs (c : Char) : Bool :=
  c = ' ' || c = '\t' || c = '\n' || c = '\r'

/-- Drop leading JSON whitespace. -/
def skipWs : List Char → List Char
  | [] => []
  | c :: cs => if isJsonWs c then skipWs cs else c :: cs

/-- Hexadecimal digit, for \u escapes. -/
def isHexDigit (c : Char) : Bool :=
  c.isDigit || ('a' ≤ c && c ≤ 'f') || ('A' ≤ c && c ≤ 'F')

/-- Scan the body of a JSON string after its opening quote: ends at an
unescaped quote; a backslash must introduce a legal escape; unescaped
control characters are forbidden. -/
def scanStringBody : List Char → Option (List Char)
  | [] => none
  | c :: cs =>
    if c = '"' then some cs
    else if c = '\\' then
      match cs with
      | [] => none
      | e :: cs2 =>
        if e = '"' || e = '\\' || e = '/' || e = 'b' || e = 'f'
            || e = 'n' || e = 'r' || e = 't' then
          scanStringBody cs2
        else if e = 'u' then
          match cs2 with
          | h1 :: h2 :: h3 :: h4 :: cs3 =>
            if isHexDigit h1 && isHexDigit h2 && isHexDigit h3 && isHexDigit h4 then
              scanStringBody cs3
            else none
          | _ => none
        else none
    else if c.toNat < 32 then none
    else scanStringBody cs

/-- Scan a JSON number after an optional leading minus sign has been
consumed: integer part, optional fraction, optional exponent. -/
def scanNumberTail (cs : List Char) : Option (List Char) :=
  let intRest : Option (List Char) :=
    match cs with
    | [] => none
    | c :: rest =>
      if c = '0' then some rest
      else if c.isDigit then some (rest.dropWhile (fun d => d.isDigit))
      else none
  match intRest with
  | none => none
  | some rest1 =>
    let fracRest : Option (List Char) :=
      match rest1 with
      | '.' :: d :: rest2 =>
        if d.isDigit then some (rest2.dropWhile (fun x => x.isDigit)) else none
      | '.' :: [] => none
      | other => some other
    match fracRest with
    | none => none
    | some rest3 =>
      match rest3 with
      | e :: rest4 =>
        if e = 'e' || e = 'E' then
          let rest5 :=
            match rest4 with
            | s :: rest5a => if s = '+' || s = '-' then rest5a else rest4
            | [] => rest4
          match rest5 with
          | d :: rest6 =>
            if d.isDigit then some (rest6.dropWhile (fun x => x.isDigit)) else none
          | [] => none
        else some rest3
      | [] => some rest3

/-- Check that `lit` is a leading run of `cs`; return what follows. -/
def scanLiteral (lit : List Char) (cs : List Char) : Option (List Char) :=
  match lit, cs with
  | [], rest => some rest
  | l :: ls, c :: rest => if c = l then scanLiteral ls rest else none
  | _ :: _, [] => none

mutual

/-- Scan one JSON value (with surrounding-whitespace handling left to
the caller for the leading side); fuel bounds the nesting recursion. -/
def scanValue : Nat → List Char → Option (List Char)
  | 0, _ => none
  | Nat.succ fuel, cs =>
    match skipWs cs with
    | [] => none
    | c :: rest =>
      if c = '"' then scanStringBody rest
      else if c = '\x7b' then scanObjectBody fuel rest
      else if c = '[' then scanArrayBody fuel rest
      else if c = 't' then scanLiteral [ 'r', 'u', 'e'] rest
      else if c = 'f' then scanLiteral [ 'a', 'l', 's', 'e'] rest
      else if c = 'n' then scanLiteral [ 'u', 'l', 'l'] rest
      else if c = '-' then scanNumberTail rest
      else if c.isDigit then scanNumberTail (c :: rest)
      else none

/-- Scan the remainder of a JSON object after its opening brace. -/
def scanObjectBody : Nat → List Char → Option (List Char)
  | 0, _ => none
  | Nat.succ fuel, cs =>
    match skipWs cs with
    | [] => none
    | c :: rest =>
      if c = '\x7d' then some rest
      else scanMemberSeq fuel (c :: rest)

/-- Scan one or more key-value members, separated by commas, ending at
the closing brace. -/
def scanMemberSeq : Nat → List Char → Option (List Char)
  | 0, _ => none
  | Nat.succ fuel, cs =>
    match skipWs cs with
    | '"' :: rest =>
      match scanStringBody rest with
      | none => none
      | some afterKey =>
        match skipWs afterKey with
        | ':' :: afterColon =>
          match scanValue fuel afterColon with
          | none => none
          | some afterVal =>
            match skipWs afterVal with
            | ',' :: afterComma => scanMemberSeq fuel afterComma
            | c :: afterClose => if c = '\x7d' then some afterClose else none
            | [] => none
        | _ => none
    | _ => none

/-- Scan the remainder of a JSON array after its opening bracket. -/
def scanArrayBody : Nat → List Char → Option (List Char)
  | 0, _ => none
  | Nat.succ fuel, cs =>
    match skipWs cs with
    | [] => none
    | c :: rest =>
      if c = ']' then some rest
      else scanElementSeq fuel (c :: rest)

/-- Scan one or more array elements, separated by commas, ending at the
closing square bracket. -/
def scanElementSeq : Nat → List Char → Option (List Char)
  | 0, _ => none
  | Nat.succ fuel, cs =>
    match scanValue fuel cs with
    | none => none
    | some afterVal =>
      match skipWs afterVal with
      | ',' :: afterComma => scanElementSeq fuel afterComma
      | ']' :: afterClose => some afterClose
      | _ => none

end

/-- A string is well-formed JSON when one value scan consumes it up to
trailing whitespace. The fuel `s.length + 1` suffices: every recursive
descent first consumes at least one character of the input. -/
def isValidJson (s : String) : Bool :=
  match scanValue (s.length + 1) s.data with
  | some rest => (skipWs rest).isEmpty
  | none => false

/-! Concrete engine instances, used as witnesses and counterexamples. -/

/-- An engine whose entry points throw a std.exception with the
diagnostic text "Division by zero" on every input. -/
def engineTypedFailure : Engine :=
  ⟨fun _ => EngineOutcome.typedExc "Division by zero",
   fun _ => EngineOutcome.typedExc "Division by zero"⟩

/-- An engine whose CalcJson returns the usual success payload for
"2 + 2" and whose Calc returns "4". -/
def engineOk : Engine :=
  ⟨fun _ => EngineOutcome.ok "\x7b\"val\": \"4\", \"type\": \"i\"\x7d",
   fun _ => EngineOutcome.ok "4"⟩

/-- An engine whose entry points throw a value that is not a
std.exception on every input. -/
def engineUnknownFailure : Engine :=
  ⟨fun _ => EngineOutcome.unknownExc, fun _ => EngineOutcome.unknownExc⟩

/-- An engine whose Calc answers "5" - a wrong value for "2 + 2" - to
show the probe never inspects the computed value. -/
def engineCalcFive : Engine :=
  ⟨fun _ => EngineOutcome.ok "5", fun _ => EngineOutcome.ok "5"⟩

/-- An engine whose typed diagnostic text contains a double-quote
character, as real parser diagnostics that cite the offending token do. -/
def engineQuoteInMessage : Engine :=
  ⟨fun _ => EngineOutcome.typedExc "Unexpected token \"abc\" found at position 4.",
   fun _ => EngineOutcome.typedExc "Unexpected token \"abc\" found at position 4."⟩

/-! Sanity checks on the JSON checker: it accepts the two payload shapes
the wrapper is meant to produce. -/

/-- The error payload for a benign message is well-formed JSON. -/
theorem isValidJson_accepts_error_payload :
    isValidJson (createErrorJson "Division by zero") = true := by decide

/-- The engine success payload shape is well-formed JSON. -/
theorem isValidJson_accepts_success_payload :
    isValidJson "\x7b\"val\": \"4\", \"type\": \"i\"\x7d" = true := by decide

/-! Claim theorems. -/

/-- C1: for every engine behavior and every input string (the empty
string included), eval_equation returns a string: either the engineized
success payload, or an error JSON built by createErrorJson - so the two
cases are told apart by the error-JSON shape versus the engine payload,
and no exception outcome of the engine escapes as anything but a string. -/
theorem eval_equation_no_fault_escape (engine : Engine) (equation : String) (log : Log) :
    (∃ r, engine.CalcJson equation = EngineOutcome.ok r
        ∧ (eval_equation engine equation log).1 = r)
    ∨ (∃ m, (eval_equation engine equation log).1 = createErrorJson m) := by
  cases h : engine.CalcJson equation with
  | ok r =>
    exact Or.inl ⟨r, rfl, by simp [eval_equation, evaluateEquationSafely, h]⟩
  | typedExc m =>
    exact Or.inr ⟨"C++ exception: " ++ m,
      by simp [eval_equation, evaluateEquationSafely, h, handleKnownException]⟩
  | unknownExc =>
    exact Or.inr ⟨"Unknown C++ exception occurred",
      by simp [eval_equation, evaluateEquationSafely, h, handleUnknownException]⟩

/-- C2 counterexample: with the engine throwing a std.exception whose
diagnostic text is "Division by zero", eval_equation on "1 / 0" does not
return the error object carrying that text unmodified - the code prepends
"C++ exception: " to the message. -/
theorem eval_equation_typed_message_not_verbatim :
    (eval_equation engineTypedFailure "1 / 0" []).1
        = "\x7b\"error\": \"C++ exception: Division by zero\"\x7d"
    ∧ (eval_equation engineTypedFailure "1 / 0" []).1
        ≠ "\x7b\"error\": \"Division by zero\"\x7d" := by
  constructor
  · decide
  · decide

/-- C2 (amended): on every input where the engine throws a typed failure
with diagnostic m, eval_equation returns the error JSON whose message is
m prefixed with the fixed string "C++ exception: " - the engine text is
preserved, but behind that prefix rather than unmodified. -/
theorem eval_equation_typed_failure_payload (engine : Engine) (equation : String)
    (log : Log) (m : String)
    (h : engine.CalcJson equation = EngineOutcome.typedExc m) :
    (eval_equation engine equation log).1 = createErrorJson ("C++ exception: " ++ m) := by
  simp [eval_equation, evaluateEquationSafely, h, handleKnownException]

/-- C2 (amended) witness at a concrete engine and input. -/
theorem eval_equation_typed_failure_payload_witness :
    (eval_equation engineTypedFailure "1 / 0" []).1
      = createErrorJson ("C++ exception: " ++ "Division by zero") :=
  eval_equation_typed_failure_payload engineTypedFailure "1 / 0" [] "Division by zero" rfl

/-- C3: whenever the engine entry point CalcJson returns normally with a
string r, eval_equation returns exactly r, unmodified. -/
theorem eval_equation_success_verbatim (engine : Engine) (equation : String)
    (log : Log) (r : String)
    (h : engine.CalcJson equation = EngineOutcome.ok r) :
    (eval_equation engine equation log).1 = r := by
  simp [eval_equation, evaluateEquationSafely, h]

/-- C3 witness at a concrete engine and input. -/
theorem eval_equation_success_verbatim_witness :
    (eval_equation engineOk "2 + 2" []).1 = "\x7b\"val\": \"4\", \"type\": \"i\"\x7d" :=
  eval_equation_success_verbatim engineOk "2 + 2" []
    "\x7b\"val\": \"4\", \"type\": \"i\"\x7d" rfl

/-- C4: the probe calls the engine on the fixed expression "2 + 2" and
returns the sentinel 42 exactly when that call completes without fault,
and the sentinel -1 when the engine throws any exception, typed or not. -/
theorem test_equations_parser_loaded_sentinels (engine : Engine) (log : Log) :
    (test_equations_parser_loaded engine log).1 =
      match engine.Calc "2 + 2" with
      | EngineOutcome.ok _ => (42 : Int)
      | EngineOutcome.typedExc _ => -1
      | EngineOutcome.unknownExc => -1 := by
  cases h : engine.Calc "2 + 2" <;>
    simp [test_equations_parser_loaded, runBasicFunctionalityTest, h,
      getSuccessIndicator, getFailureIndicator, logModuleLoadSuccess, logTestFailure]

/-- C5: on every input where the engine fails with a fault that is not a
std.exception, eval_equation returns the error payload with the one fixed
generic message, carrying no diagnostic detail of the fault (the fault
variant carries no data at all in the model, as catch-all sees none). -/
theorem eval_equation_unknown_failure_generic (engine : Engine) (equation : String)
    (log : Log)
    (h : engine.CalcJson equation = EngineOutcome.unknownExc) :
    (eval_equation engine equation log).1
      = createErrorJson "Unknown C++ exception occurred" := by
  simp [eval_equation, evaluateEquationSafely, h, handleUnknownException]

/-- C5 witness at a concrete engine and input. -/
theorem eval_equation_unknown_failure_generic_witness :
    (eval_equation engineUnknownFailure "" []).1
      = createErrorJson "Unknown C++ exception occurred" :=
  eval_equation_unknown_failure_generic engineUnknownFailure "" [] rfl

/-- C6: eval_equation is deterministic across calls: its returned string
does not depend on the accumulated log state - the only state threaded
between calls - so two invocations with the same input and the same
engine agree, in particular a repeat call right after a first one. -/
theorem eval_equation_deterministic (engine : Engine) (equation : String)
    (log log2 : Log) :
    (eval_equation engine equation log).1 = (eval_equation engine equation log2).1
    ∧ (eval_equation engine equation ((eval_equation engine equation log).2)).1
        = (eval_equation engine equation log).1 := by
  cases h : engine.CalcJson equation <;>
    simp [eval_equation, evaluateEquationSafely, h, logEquationEvaluation,
      logSuccessfulEvaluation, handleKnownException, handleUnknownException]

/-- C7: every call appends exactly two log lines: first one containing
the input, emitted before the engine is invoked, then one reporting the
outcome (the result on success, the caught exception otherwise); and the
returned string is independent of the log, so logging does not affect it. -/
theorem eval_equation_logging (engine : Engine) (equation : String) (log : Log) :
    (eval_equation engine equation log).2 =
      log ++ ["C++: Evaluating equation: " ++ equation,
        match engine.CalcJson equation with
        | EngineOutcome.ok r => "C++: Result: " ++ r
        | EngineOutcome.typedExc m => "C++: Exception caught: " ++ m
        | EngineOutcome.unknownExc => "C++: Unknown exception caught"]
    ∧ (eval_equation engine equation log).1 = (eval_equation engine equation []).1 := by
  cases h : engine.CalcJson equation <;>
    simp [eval_equation, evaluateEquationSafely, h, logEquationEvaluation,
      logSuccessfulEvaluation, handleKnownException, handleUnknownException]

/-- C8: createErrorJson is plain concatenation with no JSON escaping,
and in consequence, for an engine diagnostic containing a double-quote
character, the string eval_equation returns on the typed-failure path is
not a well-formed JSON object. -/
theorem createErrorJson_no_escaping :
    (∀ m, createErrorJson m = "\x7b\"error\": \"" ++ m ++ "\"\x7d")
    ∧ isValidJson (eval_equation engineQuoteInMessage "min(2,)" []).1 = false := by
  constructor
  · intro m; rfl
  · decide

/-- C9: the probe never inspects the value the engine computes: any
normal return of Calc on "2 + 2" - the wrong value "5" included - yields
the success sentinel 42, and the failure sentinel -1 implies the call
did not return normally. -/
theorem probe_ignores_computed_value (engine : Engine) (log : Log) :
    (∀ r, engine.Calc "2 + 2" = EngineOutcome.ok r →
        (test_equations_parser_loaded engine log).1 = 42)
    ∧ ((test_equations_parser_loaded engine log).1 = -1 →
        ∀ r, engine.Calc "2 + 2" ≠ EngineOutcome.ok r) := by
  constructor
  · intro r h
    simp [test_equations_parser_loaded, runBasicFunctionalityTest, h,
      getSuccessIndicator, logModuleLoadSuccess]
  · intro hfail r h
    rw [show (test_equations_parser_loaded engine log).1 = 42 from by
      simp [test_equations_parser_loaded, runBasicFunctionalityTest, h,
        getSuccessIndicator, logModuleLoadSuccess]] at hfail
    exact absurd hfail (by decide)

/-- C9 witness: an engine answering the wrong value "5" for "2 + 2"
still makes the probe return 42. -/
theorem probe_ignores_computed_value_witness :
    (test_equations_parser_loaded engineCalcFive []).1 = 42 :=
  (probe_ignores_computed_value engineCalcFive []).1 "5" rfl

/-- C10: sum and multiply return exactly the double-precision values
a + b and a * b, and each appends exactly one log line as its only
other effect. -/
theorem sum_multiply_exact (a b : Float) (log : Log) :
    ((sum a b log).1 = a + b ∧ ∃ line, (sum a b log).2 = log ++ [line])
    ∧ ((multiply a b log).1 = a * b ∧ ∃ line, (multiply a b log).2 = log ++ [line]) :=
  ⟨⟨rfl, ⟨_, rfl⟩⟩, ⟨rfl, ⟨_, rfl⟩⟩⟩

end ParsecWeb
